import Mathlib

/-!
# LoginServer — shallow embedding of the authentication core

This file embeds the authentication and session-lifecycle subsystem of the
LoginServer repository (Rust, actix-web + mysql) and proves properties of it.

Embedding conventions:
* The MySQL store is a pure `Store` value (a list of `users` rows and a list
  of `sessions` rows).  Each SQL statement executed by a handler is modelled
  as the corresponding pure operation on `Store` (`SELECT ... WHERE` is a
  `List.filter`, `INSERT` appends — rejected when it would violate the
  declared `PRIMARY KEY` — and `DELETE ... WHERE` is a `filter` with the
  negated condition).  Connection acquisition and query transport are assumed
  to succeed in this model; the corresponding `InternalServerError` branches
  of the source are dead here, except where the statement itself is invalid
  or violates a constraint.
* Randomness (the freshly sampled salt, user_id and session_id strings) and
  the current time `now` (`chrono::Utc::now().timestamp()`) are passed as
  explicit parameters.
* The external crates `sha2`/`bcrypt` are modelled by an abstract parameter
  `deriveHash password salt pepper`, standing for the pipeline
  `bcrypt::hash_with_salt(base64(Sha512Trunc256(password ‖ salt ‖ pepper)), 10, salt)`
  formatted for version 2y.  Both `register.rs` and `login.rs` compute
  exactly this composition, so a single deterministic function is faithful.
* The `regex` crate's `EMAIL_REGEX.captures(..).is_some()` check is modelled
  by an abstract parameter `emailRegexMatches : String → Bool`.
* `base64::decode` and `String::from_utf8` are implemented concretely below
  (standard base64 alphabet with padding; RFC 3629 UTF-8 validation), since
  several claims hinge on their success/failure at concrete inputs.
-/

/-- One byte of a decoded base64 character (standard alphabet `A-Za-z0-9+/`). -/
def base64Char (c : Char) : Option Nat :=
  if 'A' ≤ c ∧ c ≤ 'Z' then some (c.toNat - 65)
  else if 'a' ≤ c ∧ c ≤ 'z' then some (c.toNat - 97 + 26)
  else if '0' ≤ c ∧ c ≤ '9' then some (c.toNat - 48 + 52)
  else if c = '+' then some 62
  else if c = '/' then some 63
  else none

/-- Decode a base64 character stream, four characters at a time, with
`=` padding allowed only at the very end and unused trailing bits required
to be zero — the behaviour of `base64::decode` (standard config). -/
def base64DecodeGroups : List Char → Option (List Nat)
  | [] => some []
  | a :: b :: c :: d :: rest =>
    match base64Char a, base64Char b with
    | some va, some vb =>
      if c = '=' ∧ d = '=' ∧ rest = [] then
        if vb % 16 = 0 then some [va * 4 + vb / 16] else none
      else if d = '=' ∧ rest = [] then
        match base64Char c with
        | some vc =>
          if vc % 4 = 0 then some [va * 4 + vb / 16, (vb % 16) * 16 + vc / 4]
          else none
        | none => none
      else
        match base64Char c, base64Char d with
        | some vc, some vd =>
          match base64DecodeGroups rest with
          | some tail =>
            some ([va * 4 + vb / 16, (vb % 16) * 16 + vc / 4, (vc % 4) * 64 + vd] ++ tail)
          | none => none
        | _, _ => none
    | _, _ => none
  | _ => none

/-- Model of `base64::decode` on a string: the byte list, or `none` on malformed input. -/
def base64Decode (s : String) : Option (List Nat) :=
  base64DecodeGroups s.data

/-- RFC 3629 UTF-8 decoding of a byte list, as enforced by Rust's
`String::from_utf8`: rejects overlong encodings, surrogate code points,
code points above `0x10FFFF`, stray continuation bytes and truncated
sequences. -/
def utf8Decode : List Nat → Option (List Char)
  | [] => some []
  | b1 :: rest =>
    if b1 < 0x80 then
      (utf8Decode rest).map (fun cs => Char.ofNat b1 :: cs)
    else if b1 < 0xC2 then
      none
    else if b1 < 0xE0 then
      match rest with
      | b2 :: rest2 =>
        if 0x80 ≤ b2 ∧ b2 < 0xC0 then
          (utf8Decode rest2).map
            (fun cs => Char.ofNat ((b1 - 0xC0) * 64 + (b2 - 0x80)) :: cs)
        else none
      | [] => none
    else if b1 < 0xF0 then
      match rest with
      | b2 :: b3 :: rest3 =>
        if 0x80 ≤ b2 ∧ b2 < 0xC0 ∧ 0x80 ≤ b3 ∧ b3 < 0xC0 then
          let cp := (b1 - 0xE0) * 4096 + (b2 - 0x80) * 64 + (b3 - 0x80)
          if 0x800 ≤ cp ∧ ¬(0xD800 ≤ cp ∧ cp ≤ 0xDFFF) then
            (utf8Decode rest3).map (fun cs => Char.ofNat cp :: cs)
          else none
        else none
      | _ => none
    else if b1 < 0xF5 then
      match rest with
      | b2 :: b3 :: b4 :: rest4 =>
        if 0x80 ≤ b2 ∧ b2 < 0xC0 ∧ 0x80 ≤ b3 ∧ b3 < 0xC0 ∧ 0x80 ≤ b4 ∧ b4 < 0xC0 then
          let cp := (b1 - 0xF0) * 262144 + (b2 - 0x80) * 4096 + (b3 - 0x80) * 64 + (b4 - 0x80)
          if 0x10000 ≤ cp ∧ cp ≤ 0x10FFFF then
            (utf8Decode rest4).map (fun cs => Char.ofNat cp :: cs)
          else none
        else none
      | _ => none
    else none

/-- Model of `String::from_utf8`: a `String` when the bytes are valid UTF-8. -/
def stringFromUtf8 (bytes : List Nat) : Option String :=
  (utf8Decode bytes).map String.mk

/-! ## Data model: the `users` and `sessions` tables (see `init_db`) -/

/-- A row of `users(user_id VARCHAR(64) PK, email, password, salt)`. -/
structure UserRow where
  user_id  : String
  email    : String
  password : String
  salt     : String
deriving DecidableEq, Repr

/-- A row of `sessions(session_id VARCHAR(64) PK, user_id, expiry BIGINT)`. -/
structure SessionRow where
  session_id : String
  user_id    : String
  expiry     : Int
deriving DecidableEq, Repr

/-- The database state seen by the auth handlers. -/
structure Store where
  users    : List UserRow
  sessions : List SessionRow
deriving DecidableEq, Repr

/-- Outcome of a handler: a JSON body returned with transport-200
(`HttpResponse::Ok().json(..)`), a transport-level 400 with the base64 error
text as body, a bodyless 500 (`InternalServerError().finish()`), or a panic
(`Option::unwrap`/`Result::unwrap` on a failing value). -/
inductive HttpOutcome (α : Type) where
  | ok                  : α → HttpOutcome α
  | badRequest          : HttpOutcome α
  | internalServerError : HttpOutcome α
  | panic               : HttpOutcome α
deriving DecidableEq, Repr

/-! ## register.rs -/

structure RegisterForm where
  email_base64    : String
  password_base64 : String
deriving DecidableEq, Repr

structure RegisterResponse where
  status     : Int
  message    : Option String
  session_id : Option String
  expiry     : Option Int
deriving DecidableEq, Repr

/-- Thirty days (`chrono::Duration::days(30)`) in epoch seconds: the handlers compute
`expiry = (Utc::now() + Duration::days(30)).timestamp()`. -/
def thirtyDays : Int := 30 * 86400

/-- Handler `post_register` (register.rs).  Parameters: the email-regex matcher, the
hash pipeline, the pepper, the current time, and the freshly sampled `salt`,
`user_id` and `session_id`.  Returns the outcome and the resulting store.

Note two properties of the source body, preserved here:
* the duplicate-email guard runs `SELECT COUNT(1) FROM users WHERE email = …`
  and then tests `rows.len() != 0` — the length of the *result set* of a
  COUNT query, which is always exactly one row — so the 409 branch is taken
  whenever the query succeeds;
* the `INSERT INTO users` statement is missing its closing parenthesis
  (`VALUES (:user_id, :email, :password, :salt`), so if it were ever reached
  MySQL would reject it with a syntax error and the handler would return 500. -/
def post_register (emailRegexMatches : String → Bool)
    (deriveHash : String → String → String → String)
    (pepper : String) (now : Int) (salt user_id session_id : String)
    (s : Store) (form : RegisterForm) : HttpOutcome RegisterResponse × Store :=
  match base64Decode form.email_base64 with
  | none => (.badRequest, s)
  | some email_bytes =>
  match base64Decode form.password_base64 with
  | none => (.badRequest, s)
  | some password_bytes =>
  match stringFromUtf8 email_bytes with
  | none => (.panic, s)
  | some email =>
  match stringFromUtf8 password_bytes with
  | none => (.panic, s)
  | some password =>
  if ¬ emailRegexMatches email then
    (.ok ⟨400, some "Invalid E-mail address.", none, none⟩, s)
  else
    -- SELECT COUNT(1) FROM users WHERE email = :email — one row holding the count
    let sql_check_email : List Int :=
      [((s.users.filter (fun u => u.email = email)).length : Int)]
    if sql_check_email.length ≠ 0 then
      (.ok ⟨409, some "Account already exists.", none, none⟩, s)
    else
      let _password_finalized := deriveHash password salt pepper
      let _expiry := now + thirtyDays
      -- INSERT INTO users (user_id, email, password, salt) VALUES (:user_id, :email, :password, :salt
      -- (malformed SQL: syntax error on execution → InternalServerError)
      (.internalServerError, s)

/-! ## login.rs -/

structure LoginForm where
  email_base64    : String
  password_base64 : String
deriving DecidableEq, Repr

structure LoginResponse where
  status     : Int
  message    : Option String
  session_id : Option String
  expiry     : Option Int
deriving DecidableEq, Repr

/-- The generic failure body shared by the no-such-user and wrong-password
branches of `post_login`. -/
def invalidCombination : LoginResponse :=
  ⟨401, some "E-mail and password combination is invalid, or the account does not exist.",
   none, none⟩

/-- Handler `post_login` (login.rs).  `session_id` is the freshly sampled token. -/
def post_login (deriveHash : String → String → String → String)
    (pepper : String) (now : Int) (session_id : String)
    (s : Store) (form : LoginForm) : HttpOutcome LoginResponse × Store :=
  match base64Decode form.email_base64 with
  | none => (.badRequest, s)
  | some email_bytes =>
  match base64Decode form.password_base64 with
  | none => (.badRequest, s)
  | some password_bytes =>
  match stringFromUtf8 email_bytes with
  | none => (.panic, s)
  | some email =>
  match stringFromUtf8 password_bytes with
  | none => (.panic, s)
  | some password =>
  -- SELECT password, salt, user_id FROM users WHERE email = :email
  let sql_fetch_user := s.users.filter (fun u => u.email = email)
  if sql_fetch_user.length = 0 then
    (.ok invalidCombination, s)
  else if sql_fetch_user.length > 1 then
    (.internalServerError, s)
  else
    match sql_fetch_user.head? with
    | none => (.panic, s)   -- sql_fetch_user.get(0).unwrap(): unreachable here
    | some row =>
      let password_finalized := deriveHash password row.salt pepper
      if password_finalized ≠ row.password then
        (.ok invalidCombination, s)
      else
        let expiry := now + thirtyDays
        -- INSERT INTO sessions (session_id, user_id, expiry) VALUES (…)
        -- (fails on a PRIMARY KEY (session_id) collision → InternalServerError)
        if s.sessions.any (fun r => r.session_id = session_id) then
          (.internalServerError, s)
        else
          (.ok ⟨200, none, some session_id, some expiry⟩,
           { s with sessions := s.sessions ++ [⟨session_id, row.user_id, expiry⟩] })

/-! ## session.rs (WhoAmI) -/

structure SessionRequest where
  session_id : String
deriving DecidableEq, Repr

structure SessionResponse where
  status  : Int
  user_id : Option String
  email   : Option String
  message : Option String
deriving DecidableEq, Repr

/-- Handler `post_session` (session.rs): validate a session token. -/
def post_session (now : Int) (s : Store) (form : SessionRequest) :
    HttpOutcome SessionResponse × Store :=
  -- SELECT user_id, expiry FROM sessions WHERE session_id = :session_id
  let sql_verify_session_id := s.sessions.filter (fun r => r.session_id = form.session_id)
  match sql_verify_session_id.head? with
  | none => (.ok ⟨401, none, none, some "Session ID not found."⟩, s)
  | some row =>
    if now ≥ row.expiry then
      (.ok ⟨401, none, none, some "Session expired"⟩, s)
    else
      -- SELECT email FROM users WHERE user_id = :user_id
      let sql_get_email := s.users.filter (fun u => u.user_id = row.user_id)
      match sql_get_email.head? with
      | none => (.panic, s)   -- sql_get_email.get(0).unwrap() on an empty result set
      | some u => (.ok ⟨200, some row.user_id, some u.email, none⟩, s)

/-! ## logout.rs -/

structure LogoutRequest where
  session_id : String
deriving DecidableEq, Repr

structure LogoutResponse where
  status : Int
deriving DecidableEq, Repr

/-- Handler `post_logout` (logout.rs): revoke a session token. -/
def post_logout (s : Store) (form : LogoutRequest) :
    HttpOutcome LogoutResponse × Store :=
  -- SELECT 1 FROM sessions WHERE session_id = :session_id
  let sql_verify_session_id := s.sessions.filter (fun r => r.session_id = form.session_id)
  if sql_verify_session_id.length = 0 then
    (.ok ⟨401⟩, s)
  else
    -- DELETE FROM sessions WHERE session_id = :session_id
    (.ok ⟨200⟩,
     { s with sessions := s.sessions.filter (fun r => ¬ r.session_id = form.session_id) })

/-! ## appdata.rs: schema guard -/

/-- Result of `check_db`: the boolean verdict, the `Err(())` returned to the
caller, or a panic. -/
inductive CheckDbResult where
  | ok    : Bool → CheckDbResult
  | error : CheckDbResult
  | panic : CheckDbResult
deriving DecidableEq, Repr

/-- Function `check_db` (appdata.rs).  Unlike the request handlers, its two
database round trips are modelled explicitly, since its failure behaviour is
itself under scrutiny: the first argument is the outcome of
`self.pool.get_conn()`, the second the outcome of the
`SELECT table_name FROM INFORMATION_SCHEMA.TABLES WHERE TABLE_SCHEMA = …`
query.  On connection failure the source returns `Err(())` (the safe
`conn_wrapped.err().unwrap()` at appdata.rs:215 only formats the error).
On QUERY failure it panics: the `eprintln!` argument at appdata.rs:225 is
`sql_fetch_tables_wrapped.unwrap()` — an unwrap of the `Err` value itself —
so the `return Err(())` on the following line is dead code.  On success the
body mirrors the source: a map seeded with `users ↦ false,
sessions ↦ false`, every fetched name inserted as `true`, and the check
passing iff no entry is `false`. -/
def check_db (conn : Except Unit Unit) (fetchTables : Except Unit (List String)) :
    CheckDbResult :=
  match conn with
  | .error _ => .error
  | .ok _ =>
    match fetchTables with
    | .error _ => .panic
    | .ok tables =>
      let required0 : List (String × Bool) := [("users", false), ("sessions", false)]
      let required := tables.foldl
        (fun m t => (m.filter (fun e => e.1 ≠ t)) ++ [(t, true)]) required0
      .ok (required.all (fun e => e.2))

/-- Function `init_db` (appdata.rs): `CREATE TABLE sessions` then `CREATE TABLE users`.
`CREATE TABLE` fails when the table already exists, which the source
surfaces as `Err` after the first failing statement. -/
def init_db (tables : List String) : Except Unit (List String) :=
  if tables.contains "sessions" then .error ()
  else
    let t1 := tables ++ ["sessions"]
    if t1.contains "users" then .error ()
    else .ok (t1 ++ ["users"])

/-! ## Derived observations used by the theorems -/

/-- The first row returned by
`SELECT user_id, expiry FROM sessions WHERE session_id = :session_id`. -/
def sessionFirst (s : Store) (sid : String) : Option SessionRow :=
  (s.sessions.filter (fun r => r.session_id = sid)).head?

/-- The first row returned by
`SELECT email FROM users WHERE user_id = :user_id`. -/
def userFirst (s : Store) (uid : String) : Option UserRow :=
  (s.users.filter (fun u => u.user_id = uid)).head?

/-- The `user_id` a WhoAmI outcome reports the session valid for: `some uid`
exactly when the outcome is a JSON body with `status = 200`. -/
def whoamiValidFor (o : HttpOutcome SessionResponse) : Option String :=
  match o with
  | .ok r => if r.status = 200 then r.user_id else none
  | _ => none

/-- The `status` field of a WhoAmI outcome, when the outcome is a JSON body. -/
def sessionStatus (o : HttpOutcome SessionResponse) : Option Int :=
  match o with
  | .ok r => some r.status
  | _ => none

/-- The `(status, message)` pair of a Login outcome, when it is a JSON body. -/
def loginStatusMessage (o : HttpOutcome LoginResponse) : Option (Int × Option String) :=
  match o with
  | .ok r => some (r.status, r.message)
  | _ => none

/-- Expiry discipline relating a pre-state to a post-state: every session row
of the post-state either already existed or carries `expiry = now + 30 days`,
and every pre-state row either survives unchanged or is deleted outright
(no row with its `session_id` remains), so no existing row's expiry is
ever rewritten. -/
def expirySetOnce (now : Int) (pre post : Store) : Prop :=
  (∀ r ∈ post.sessions, r ∈ pre.sessions ∨ r.expiry = now + thirtyDays) ∧
  (∀ r ∈ pre.sessions, r ∈ post.sessions ∨ ∀ q ∈ post.sessions, q.session_id ≠ r.session_id)

/-! ## Helper lemmas -/

/-- Every branch of `post_register` leaves the store untouched: the
duplicate-email guard misreads the COUNT result set and takes the 409 exit
before any INSERT can run. -/
theorem post_register_state_eq (matcher : String → Bool)
    (dh : String → String → String → String) (pepper : String) (now : Int)
    (salt uid sid : String) (s : Store) (rf : RegisterForm) :
    (post_register matcher dh pepper now salt uid sid s rf).2 = s := by
  rcases h1 : base64Decode rf.email_base64 with _ | eb
  · simp [post_register, h1]
  rcases h2 : base64Decode rf.password_base64 with _ | pb
  · simp [post_register, h1, h2]
  rcases h3 : stringFromUtf8 eb with _ | e
  · simp [post_register, h1, h2, h3]
  rcases h4 : stringFromUtf8 pb with _ | p
  · simp [post_register, h1, h2, h3, h4]
  by_cases hm : matcher e = true
  · simp [post_register, h1, h2, h3, h4, hm]
  · simp [post_register, h1, h2, h3, h4, hm]

/-- Every branch of `post_session` leaves the store untouched. -/
theorem post_session_state_eq (now : Int) (s : Store) (q : SessionRequest) :
    (post_session now s q).2 = s := by
  rcases h1 : (s.sessions.filter (fun r => r.session_id = q.session_id)).head? with _ | row
  · simp [post_session, h1]
  by_cases h2 : now ≥ row.expiry
  · simp [post_session, h1, h2]
  rcases h3 : (s.users.filter (fun u => u.user_id = row.user_id)).head? with _ | u
  · simp [post_session, h1, h2, h3]
  · simp [post_session, h1, h2, h3]

/-- The sessions table after `post_login` is either unchanged or extended by
exactly one fresh row carrying `expiry = now + 30 days`. -/
theorem post_login_sessions_shape (dh : String → String → String → String)
    (pepper : String) (now : Int) (sid : String) (s : Store) (lf : LoginForm) :
    (post_login dh pepper now sid s lf).2.sessions = s.sessions
    ∨ ∃ uid, ¬ s.sessions.any (fun r => r.session_id = sid)
        ∧ (post_login dh pepper now sid s lf).2.sessions
            = s.sessions ++ [⟨sid, uid, now + thirtyDays⟩] := by
  rcases h1 : base64Decode lf.email_base64 with _ | eb
  · exact Or.inl (by simp [post_login, h1])
  rcases h2 : base64Decode lf.password_base64 with _ | pb
  · exact Or.inl (by simp [post_login, h1, h2])
  rcases h3 : stringFromUtf8 eb with _ | e
  · exact Or.inl (by simp [post_login, h1, h2, h3])
  rcases h4 : stringFromUtf8 pb with _ | p
  · exact Or.inl (by simp [post_login, h1, h2, h3, h4])
  by_cases h0 : (s.users.filter (fun u => u.email = e)).length = 0
  · exact Or.inl (by simp [post_login, h1, h2, h3, h4, h0])
  by_cases hgt : (s.users.filter (fun u => u.email = e)).length > 1
  · exact Or.inl (by simp [post_login, h1, h2, h3, h4, h0, hgt])
  rcases hh : (s.users.filter (fun u => u.email = e)).head? with _ | row
  · exact Or.inl (by simp [post_login, h1, h2, h3, h4, h0, hgt, hh])
  by_cases hw : dh p row.salt pepper ≠ row.password
  · exact Or.inl (by simp [post_login, h1, h2, h3, h4, h0, hgt, hh, hw])
  by_cases hc : s.sessions.any (fun r => r.session_id = sid) = true
  · exact Or.inl (by simp [post_login, h1, h2, h3, h4, h0, hgt, hh, hw, hc])
  · exact Or.inr ⟨row.user_id, by simp [hc],
      by simp [post_login, h1, h2, h3, h4, h0, hgt, hh, hw, hc]⟩

/-- The sessions table after `post_logout` is either unchanged or the result
of deleting every row whose id matches the request. -/
theorem post_logout_sessions_shape (s : Store) (lq : LogoutRequest) :
    (post_logout s lq).2.sessions = s.sessions
    ∨ (post_logout s lq).2.sessions
        = s.sessions.filter (fun r => ¬ r.session_id = lq.session_id) := by
  by_cases h : (s.sessions.filter (fun r => r.session_id = lq.session_id)).length = 0
  · exact Or.inl (by simp [post_logout, h])
  · exact Or.inr (by simp [post_logout, h])

/-- A Logout call whose id matches no stored session row returns 401 and
leaves the store untouched. -/
theorem post_logout_absent (t : Store) (sid : String)
    (h : t.sessions.filter (fun r => r.session_id = sid) = []) :
    post_logout t ⟨sid⟩ = (.ok ⟨401⟩, t) := by
  simp [post_logout, h]

/-! ## Claim theorems -/

/-- C1 (code bug): against an empty store, a well-formed Register call for the
valid address `a@b.com` (base64 `YUBiLmNvbQ==`, password `pw`) is answered
with status 409 "Account already exists." and inserts nothing, on the very
first call: the duplicate-email guard tests the row count of the result set
of `SELECT COUNT(1)`, which is always one row, so the conflict branch is
taken unconditionally.  The input demonstrably decodes to `a@b.com` and the
regex matcher accepts it. -/
theorem register_first_call_conflicts :
    base64Decode "YUBiLmNvbQ==" = some [97, 64, 98, 46, 99, 111, 109]
    ∧ stringFromUtf8 [97, 64, 98, 46, 99, 111, 109] = some "a@b.com"
    ∧ (fun e => e.data.contains '@') "a@b.com" = true
    ∧ post_register (fun e => e.data.contains '@') (fun p s pep => p ++ "/" ++ s ++ "/" ++ pep)
        "pepper" 0 "saltsaltsaltsalt" "uid" "sid"
        ⟨[], []⟩ ⟨"YUBiLmNvbQ==", "cHc="⟩
      = (.ok ⟨409, some "Account already exists.", none, none⟩, ⟨[], []⟩) := by
  decide

/-- C8: WhoAmI (`post_session`) never modifies the session store — for every
session id, including expired ones, the stored session rows after the call
equal those before it. -/
theorem whoami_preserves_sessions (now : Int) (s : Store) (sid : String) :
    (post_session now s ⟨sid⟩).2.sessions = s.sessions :=
  congrArg Store.sessions (post_session_state_eq now s ⟨sid⟩)

/-- C9: the string `/w==` is valid base64 and decodes to the byte `0xFF`,
which is not valid UTF-8; a Register or Login call carrying it as
`email_base64` panics (`String::from_utf8(..).unwrap()`) instead of
returning a structured client-error result. -/
theorem auth_panics_on_non_utf8_credentials :
    base64Decode "/w==" = some [255]
    ∧ stringFromUtf8 [255] = none
    ∧ (post_register (fun e => e.data.contains '@') (fun p s pep => p ++ "/" ++ s ++ "/" ++ pep)
         "pepper" 0 "saltsaltsaltsalt" "uid" "sid" ⟨[], []⟩ ⟨"/w==", "cHc="⟩).1
        = .panic
    ∧ (post_login (fun p s pep => p ++ "/" ++ s ++ "/" ++ pep) "pepper" 0 "sid"
         ⟨[], []⟩ ⟨"/w==", "cHc="⟩).1
        = .panic := by
  decide

/-- C10: on a store holding an unexpired session for user id `v1` but no
`users` row with that id, WhoAmI panics (`.get(0).unwrap()` on the empty
email query result) rather than returning any structured status result. -/
theorem whoami_panics_on_missing_user :
    (0 : Int) < 50
    ∧ (⟨"t1", "v1", 50⟩ : SessionRow) ∈ (⟨[], [⟨"t1", "v1", 50⟩]⟩ : Store).sessions
    ∧ (⟨[], [⟨"t1", "v1", 50⟩]⟩ : Store).users.filter (fun u => u.user_id = "v1") = []
    ∧ (post_session 0 ⟨[], [⟨"t1", "v1", 50⟩]⟩ ⟨"t1"⟩).1 = .panic := by
  decide

/-- C2 counterexample: a session row for id `s9` exists and is unexpired at
time 0, yet WhoAmI does not report the session valid with status 200 — it
panics, because the session's `user_id` matches no `users` row.  This
refutes the claimed equivalence as stated. -/
theorem whoami_valid_claim_cex :
    sessionFirst ⟨[], [⟨"s9", "u9", 100⟩]⟩ "s9" = some ⟨"s9", "u9", 100⟩
    ∧ (0 : Int) < 100
    ∧ (post_session 0 ⟨[], [⟨"s9", "u9", 100⟩]⟩ ⟨"s9"⟩).1 = .panic := by
  decide

/-- C2 (amended): WhoAmI reports the session valid — a JSON body with
status 200 carrying the matching `user_id` — iff a session row with the
requested id exists, `now` is strictly below its expiry, and its `user_id`
resolves to a stored user; and whenever the row is absent or expired it
returns status 401. -/
theorem whoami_valid_iff (now : Int) (s : Store) (sid : String) :
    ((∃ r, sessionFirst s sid = some r ∧ now < r.expiry ∧ (userFirst s r.user_id).isSome = true)
       ↔ (∃ r, sessionFirst s sid = some r ∧
            whoamiValidFor (post_session now s ⟨sid⟩).1 = some r.user_id))
    ∧ ((∀ r, sessionFirst s sid = some r → r.expiry ≤ now) →
        sessionStatus (post_session now s ⟨sid⟩).1 = some 401) := by
  constructor
  · constructor
    · rintro ⟨r, hr, hlt, hu⟩
      refine ⟨r, hr, ?_⟩
      rcases huf : (s.users.filter (fun x => x.user_id = r.user_id)).head? with _ | u
      · simp [userFirst, huf] at hu
      · have hge : ¬ now ≥ r.expiry := not_le.mpr hlt
        simp only [sessionFirst] at hr
        simp [post_session, hr, hge, huf, whoamiValidFor]
    · rintro ⟨r, hr, hvalid⟩
      refine ⟨r, hr, ?_⟩
      simp only [sessionFirst] at hr
      by_cases hge : now ≥ r.expiry
      · simp [post_session, hr, hge, whoamiValidFor] at hvalid
      · rcases huf : (s.users.filter (fun x => x.user_id = r.user_id)).head? with _ | u
        · simp [post_session, hr, hge, huf, whoamiValidFor] at hvalid
        · exact ⟨not_le.mp hge, by simp [userFirst, huf]⟩
  · intro hexp
    rcases hseq : (s.sessions.filter (fun r => r.session_id = sid)).head? with _ | row
    · simp [post_session, sessionStatus, hseq]
    · have hle : row.expiry ≤ now := hexp row (by simpa [sessionFirst] using hseq)
      simp [post_session, sessionStatus, hseq, ge_iff_le, hle]

/-- C3: a Login call that finds exactly one user for its email but whose
derived hash mismatches the stored one, and a Login call whose email matches
no user, produce the identical `(status, message)` pair — the generic
"invalid combination" 401 — revealing nothing about account existence. -/
theorem login_no_account_leak
    (dh : String → String → String → String) (pepper : String)
    (now now2 : Int) (sid sid2 : String) (s s2 : Store)
    (f f2 : LoginForm) (eb pb eb2 pb2 : List Nat) (e p e2 p2 : String) (u : UserRow)
    (hd1 : base64Decode f.email_base64 = some eb)
    (hd2 : base64Decode f.password_base64 = some pb)
    (hd3 : stringFromUtf8 eb = some e)
    (hd4 : stringFromUtf8 pb = some p)
    (hu : s.users.filter (fun x => x.email = e) = [u])
    (hwrong : dh p u.salt pepper ≠ u.password)
    (he1 : base64Decode f2.email_base64 = some eb2)
    (he2 : base64Decode f2.password_base64 = some pb2)
    (he3 : stringFromUtf8 eb2 = some e2)
    (he4 : stringFromUtf8 pb2 = some p2)
    (hnone : s2.users.filter (fun x => x.email = e2) = []) :
    loginStatusMessage (post_login dh pepper now sid s f).1
      = loginStatusMessage (post_login dh pepper now2 sid2 s2 f2).1
    ∧ loginStatusMessage (post_login dh pepper now sid s f).1
      = some (invalidCombination.status, invalidCombination.message) := by
  have hA : (post_login dh pepper now sid s f).1 = .ok invalidCombination := by
    simp [post_login, hd1, hd2, hd3, hd4, hu, hwrong]
  have hB : (post_login dh pepper now2 sid2 s2 f2).1 = .ok invalidCombination := by
    simp [post_login, he1, he2, he3, he4, hnone]
  rw [hA, hB]
  exact ⟨rfl, rfl⟩

/-- C4: Logout returns status 401 (found = false, not an error) and leaves
the store intact when no session row matches, and otherwise returns status
200 and deletes the matching row — with no condition on expiry — so revoking
the same id twice yields 200 then 401. -/
theorem logout_found_semantics (s : Store) (sid : String) :
    (s.sessions.filter (fun r => r.session_id = sid) = [] →
       post_logout s ⟨sid⟩ = (.ok ⟨401⟩, s))
    ∧ (s.sessions.filter (fun r => r.session_id = sid) ≠ [] →
       (post_logout s ⟨sid⟩).1 = .ok ⟨200⟩
       ∧ (post_logout s ⟨sid⟩).2.sessions
           = s.sessions.filter (fun r => ¬ r.session_id = sid)
       ∧ (post_logout (post_logout s ⟨sid⟩).2 ⟨sid⟩).1 = .ok ⟨401⟩) := by
  constructor
  · intro h
    exact post_logout_absent s sid h
  · intro h
    have hlen : ¬ (s.sessions.filter (fun r => r.session_id = sid)).length = 0 := by
      simpa [List.length_eq_zero] using h
    have hstate : (post_logout s ⟨sid⟩).2.sessions
        = s.sessions.filter (fun r => ¬ r.session_id = sid) := by
      simp [post_logout, hlen]
    refine ⟨by simp [post_logout, hlen], hstate, ?_⟩
    have hnil : (post_logout s ⟨sid⟩).2.sessions.filter (fun r => r.session_id = sid) = [] := by
      rw [hstate, List.filter_filter]
      apply List.filter_eq_nil_iff.mpr
      intro a _
      simp
    rw [post_logout_absent _ sid hnil]

/-- C5: across all four operations, every session row of the resulting store
either already existed or carries `expiry = now + 30 days` (the value both
Register and Login compute at creation), and every pre-existing row either
survives unchanged or is deleted outright — no operation rewrites the expiry
of an existing session row. -/
theorem session_expiry_set_once
    (matcher : String → Bool) (dh : String → String → String → String)
    (pepper : String) (now : Int) (salt uid sid sid2 : String) (s : Store)
    (rf : RegisterForm) (lf : LoginForm) (sq : SessionRequest) (lq : LogoutRequest) :
    expirySetOnce now s (post_register matcher dh pepper now salt uid sid s rf).2
    ∧ expirySetOnce now s (post_login dh pepper now sid2 s lf).2
    ∧ expirySetOnce now s (post_session now s sq).2
    ∧ expirySetOnce now s (post_logout s lq).2 := by
  refine ⟨?_, ?_, ?_, ?_⟩
  · rw [post_register_state_eq]
    exact ⟨fun r hr => Or.inl hr, fun r hr => Or.inl hr⟩
  · rcases post_login_sessions_shape dh pepper now sid2 s lf with h | ⟨u2, _, h⟩
    · exact ⟨fun r hr => Or.inl (h ▸ hr), fun r hr => Or.inl (h ▸ hr)⟩
    · constructor
      · intro r hr
        rw [h] at hr
        rcases List.mem_append.mp hr with h1 | h2
        · exact Or.inl h1
        · right
          rw [List.mem_singleton.mp h2]
      · intro r hr
        exact Or.inl (h ▸ List.mem_append_left _ hr)
  · rw [post_session_state_eq]
    exact ⟨fun r hr => Or.inl hr, fun r hr => Or.inl hr⟩
  · rcases post_logout_sessions_shape s lq with h | h
    · exact ⟨fun r hr => Or.inl (h ▸ hr), fun r hr => Or.inl (h ▸ hr)⟩
    · constructor
      · intro r hr
        rw [h] at hr
        exact Or.inl (List.mem_of_mem_filter hr)
      · intro r hr
        by_cases hid : r.session_id = lq.session_id
        · right
          intro q hq
          rw [h] at hq
          have hq2 := List.of_mem_filter hq
          rw [hid]
          simpa using hq2
        · left
          rw [h]
          exact List.mem_filter.mpr ⟨hr, by simp [hid]⟩

/-- C7: a Login call whose email lookup returns more than one user row is
answered with the bodyless 500 server error, not the generic
invalid-combination login failure. -/
theorem login_duplicate_email_server_error
    (dh : String → String → String → String) (pepper : String) (now : Int)
    (sid : String) (s : Store) (f : LoginForm) (eb pb : List Nat) (e p : String)
    (hd1 : base64Decode f.email_base64 = some eb)
    (hd2 : base64Decode f.password_base64 = some pb)
    (hd3 : stringFromUtf8 eb = some e)
    (hd4 : stringFromUtf8 pb = some p)
    (hdup : 1 < (s.users.filter (fun x => x.email = e)).length) :
    post_login dh pepper now sid s f = (.internalServerError, s) := by
  have h0 : ¬ (s.users.filter (fun x => x.email = e)).length = 0 := by omega
  simp [post_login, hd1, hd2, hd3, hd4, h0, hdup]

/-- A required-table entry still marked `false` survives the fold over the
fetched table names as long as its key is never fetched. -/
theorem foldl_insert_keeps_missing (k : String) (tables : List String)
    (m : List (String × Bool)) (hk : (k, false) ∈ m) (hnot : k ∉ tables) :
    (k, false) ∈ tables.foldl
      (fun m t => (m.filter (fun e => e.1 ≠ t)) ++ [(t, true)]) m := by
  induction tables generalizing m with
  | nil => exact hk
  | cons t ts ih =>
    simp only [List.foldl_cons]
    apply ih
    · apply List.mem_append_left
      apply List.mem_filter.mpr
      refine ⟨hk, ?_⟩
      have hkt : k ≠ t := fun hkt => hnot (hkt ▸ List.mem_cons_self t ts)
      simpa using hkt
    · intro hmem
      exact hnot (List.mem_cons_of_mem t hmem)

/-- Conversely, any entry of the folded map still marked `false` was already
in the seed map and its key was never fetched. -/
theorem foldl_insert_false_mem (tables : List String) (m : List (String × Bool))
    (e : String × Bool)
    (he : e ∈ tables.foldl (fun m t => (m.filter (fun x => x.1 ≠ t)) ++ [(t, true)]) m)
    (hf : e.2 = false) : e ∈ m ∧ e.1 ∉ tables := by
  induction tables generalizing m with
  | nil => exact ⟨he, by simp⟩
  | cons t ts ih =>
    simp only [List.foldl_cons] at he
    obtain ⟨hmem, hnotin⟩ := ih _ he
    rcases List.mem_append.mp hmem with h1 | h2
    · refine ⟨List.mem_of_mem_filter h1, ?_⟩
      have hne := List.of_mem_filter h1
      simp only [decide_not, Bool.not_eq_true, decide_eq_false_iff_not] at hne
      simp only [List.mem_cons, not_or]
      exact ⟨by simpa using hne, hnotin⟩
    · exfalso
      have he2 : e = (t, true) := by simpa using h2
      rw [he2] at hf
      simp at hf

/-- C6 (code bug): `check_db` reports `false` (not an error) when a required
table is merely missing and `true` on the table set a successful `init_db`
produces, and it returns an error only on connection failure — but on a
failing metadata QUERY it panics (the `eprintln!` argument at appdata.rs:225
unwraps the `Err` result itself, leaving the adjacent `return Err(())`
dead), so the query failure the spec expects to be surfaced to the caller
as an error is not. -/
theorem check_db_spec :
    (∀ fetch : Except Unit (List String), check_db (.error ()) fetch = .error)
    ∧ check_db (.ok ()) (.error ()) = .panic
    ∧ (∀ (conn : Except Unit Unit) (fetch : Except Unit (List String)),
        check_db conn fetch = .error → conn = .error ())
    ∧ (∀ tables : List String, ("users" ∉ tables ∨ "sessions" ∉ tables) →
        check_db (.ok ()) (.ok tables) = .ok false)
    ∧ (∀ tables created : List String, init_db tables = .ok created →
        check_db (.ok ()) (.ok created) = .ok true) := by
  refine ⟨fun fetch => rfl, rfl, ?_, ?_, ?_⟩
  · intro conn fetch h
    cases conn with
    | error e => cases e; rfl
    | ok u =>
      cases fetch with
      | error e => simp [check_db] at h
      | ok tables => simp [check_db] at h
  · intro tables htab
    simp only [check_db, CheckDbResult.ok.injEq]
    have hmem : ∃ k, (k, (false : Bool)) ∈ tables.foldl
        (fun m t => (m.filter (fun e => e.1 ≠ t)) ++ [(t, true)])
        [("users", false), ("sessions", false)] := by
      rcases htab with h | h
      · exact ⟨"users", foldl_insert_keeps_missing "users" tables _ (by simp) h⟩
      · exact ⟨"sessions", foldl_insert_keeps_missing "sessions" tables _ (by simp) h⟩
    obtain ⟨k, hk⟩ := hmem
    apply Bool.eq_false_iff.mpr
    intro hall
    have := List.all_eq_true.mp hall _ hk
    simp at this
  · intro tables created hinit
    have hns : ("users" : String) ≠ "sessions" := by decide
    have hcr : created = tables ++ ["sessions", "users"] := by
      simp only [init_db] at hinit
      by_cases h1 : "sessions" ∈ tables
      · simp [h1] at hinit
      · by_cases h2 : "users" ∈ tables
        · simp [h1, h2, hns] at hinit
        · simp [h1, h2, hns] at hinit
          exact hinit.symm
    have husers : "users" ∈ created := by rw [hcr]; simp
    have hsess : "sessions" ∈ created := by rw [hcr]; simp
    simp only [check_db, CheckDbResult.ok.injEq]
    apply List.all_eq_true.mpr
    intro e he
    cases hb : e.2 with
    | true => simp [hb]
    | false =>
      exfalso
      obtain ⟨hm, hnot⟩ := foldl_insert_false_mem created _ e he hb
      rcases (by simpa using hm :
          e = ("users", (false : Bool)) ∨ e = ("sessions", (false : Bool))) with h | h
      · exact hnot (by rw [h]; exact husers)
      · exact hnot (by rw [h]; exact hsess)

/-! ## Concrete instances for the witnesses -/

/-- A concrete stand-in for the abstract hash pipeline, used to instantiate
`deriveHash` in witnesses. -/
def dhDemo : String → String → String → String :=
  fun p s pep => p ++ "/" ++ s ++ "/" ++ pep

/-- A concrete stand-in for the email-regex matcher; it agrees with the
source regex on the concrete addresses used below. -/
def matcherDemo : String → Bool := fun e => e.data.contains '@'

/-- A demo user whose stored hash differs from every `dhDemo`-derived one. -/
def userDemo : UserRow := ⟨"u1", "a@b.com", "storedhash", "saltsaltsaltsalt"⟩

/-- A demo store holding a single session row. -/
def storeDemo : Store := ⟨[], [⟨"t5", "u5", 7⟩]⟩

/-- Witness for `whoami_valid_iff`: on the empty store no session row exists
for id `nope`, and WhoAmI reports status 401. -/
theorem whoami_valid_iff_witness :
    sessionStatus (post_session 0 ⟨[], []⟩ ⟨"nope"⟩).1 = some 401 :=
  (whoami_valid_iff 0 ⟨[], []⟩ "nope").2 (fun r hr => by simp [sessionFirst] at hr)

/-- Witness for `login_no_account_leak`: a wrong-password login against
`userDemo` and a login for the same address against an empty store return
the identical generic 401 pair. -/
theorem login_no_account_leak_witness :
    loginStatusMessage
        (post_login dhDemo "pep" 0 "sid" ⟨[userDemo], []⟩ ⟨"YUBiLmNvbQ==", "cHc="⟩).1
      = loginStatusMessage
        (post_login dhDemo "pep" 5 "sid2" ⟨[], []⟩ ⟨"YUBiLmNvbQ==", "cHc="⟩).1
    ∧ loginStatusMessage
        (post_login dhDemo "pep" 0 "sid" ⟨[userDemo], []⟩ ⟨"YUBiLmNvbQ==", "cHc="⟩).1
      = some (invalidCombination.status, invalidCombination.message) :=
  login_no_account_leak dhDemo "pep" 0 5 "sid" "sid2" ⟨[userDemo], []⟩ ⟨[], []⟩
    ⟨"YUBiLmNvbQ==", "cHc="⟩ ⟨"YUBiLmNvbQ==", "cHc="⟩
    [97, 64, 98, 46, 99, 111, 109] [112, 119] [97, 64, 98, 46, 99, 111, 109] [112, 119]
    "a@b.com" "pw" "a@b.com" "pw" userDemo
    (by decide) (by decide) (by decide) (by decide) (by decide) (by decide)
    (by decide) (by decide) (by decide) (by decide) (by decide)

/-- Witness for `logout_found_semantics`: revoking the (expired) session
`w1` yields 200 and then 401 on the second call. -/
theorem logout_found_semantics_witness :
    (post_logout ⟨[], [⟨"w1", "x1", -5⟩]⟩ ⟨"w1"⟩).1 = .ok ⟨200⟩
    ∧ (post_logout (post_logout ⟨[], [⟨"w1", "x1", -5⟩]⟩ ⟨"w1"⟩).2 ⟨"w1"⟩).1 = .ok ⟨401⟩ := by
  have h := (logout_found_semantics ⟨[], [⟨"w1", "x1", -5⟩]⟩ "w1").2 (by decide)
  exact ⟨h.1, h.2.2⟩

/-- Witness for `session_expiry_set_once` at a concrete store and logout
request. -/
theorem session_expiry_set_once_witness :
    expirySetOnce 0 storeDemo (post_logout storeDemo ⟨"t5"⟩).2 :=
  (session_expiry_set_once matcherDemo dhDemo "pep" 0 "s" "u" "i" "j" storeDemo
    ⟨"", ""⟩ ⟨"", ""⟩ ⟨""⟩ ⟨"t5"⟩).2.2.2

/-- Witness for `check_db_spec`: `init_db` on an empty table set yields
`["sessions", "users"]`, on which `check_db` (connection and query both
succeeding) reports `true`. -/
theorem check_db_spec_witness :
    check_db (.ok ()) (.ok ["sessions", "users"]) = .ok true :=
  check_db_spec.2.2.2.2 [] ["sessions", "users"] rfl

/-- Witness for `login_duplicate_email_server_error`: with two rows for
`a@b.com` in the store, login is answered with the 500 outcome. -/
theorem login_duplicate_email_server_error_witness :
    post_login dhDemo "pep" 0 "sid" ⟨[userDemo, userDemo], []⟩ ⟨"YUBiLmNvbQ==", "cHc="⟩
      = (.internalServerError, ⟨[userDemo, userDemo], []⟩) :=
  login_duplicate_email_server_error dhDemo "pep" 0 "sid" ⟨[userDemo, userDemo], []⟩
    ⟨"YUBiLmNvbQ==", "cHc="⟩ [97, 64, 98, 46, 99, 111, 109] [112, 119] "a@b.com" "pw"
    (by decide) (by decide) (by decide) (by decide) (by decide)
